import Mathlib

namespace PgMcp

/-- Database configuration entry, from the DatabaseConfig interface in src/src/index.ts. -/
structure DatabaseConfig where
  name : String
  connectionString : String
  description : Option String := none
deriving Repr, DecidableEq

/-- The parsed databases.json content, from the DatabasesConfig interface of
src/src/index.ts: a record of database configurations keyed by id (modelled as an
association list in key order) together with the designated default database id. -/
structure DatabasesConfig where
  databases : List (String × DatabaseConfig)
  defaultDatabase : String
deriving Repr, DecidableEq

/-- The process-wide server state built by initializeDatabases in src/src/index.ts:
the databaseConfigs map, the databasePools map (a pg.Pool is identified here by the
connection string it was created from), and defaultDatabaseId. -/
structure ServerState where
  databaseConfigs : List (String × DatabaseConfig)
  databasePools : List (String × String)
  defaultDatabaseId : String
deriving Repr, DecidableEq

/-- Models the JavaScript expression `databaseId || defaultDatabaseId` on a
string-or-undefined value: undefined and the empty string are falsy and fall
through to the default; every other string is truthy. -/
def jsOr (databaseId : Option String) (dflt : String) : String :=
  match databaseId with
  | none => dflt
  | some s => if s = "" then dflt else s

/-- getDatabasePool from src/src/index.ts: resolve an optional database id to the
pool registered under it, throwing (modelled as Except.error) when the resolved id
has no registered pool. -/
def getDatabasePool (st : ServerState) (databaseId : Option String) : Except String String :=
  let dbId := jsOr databaseId st.defaultDatabaseId
  match st.databasePools.lookup dbId with
  | some pool => Except.ok pool
  | none => Except.error ("Database " ++ dbId ++ " not found")

/-- getDatabaseConfig from src/src/index.ts: the same resolution over the
databaseConfigs map. -/
def getDatabaseConfig (st : ServerState) (databaseId : Option String) : Except String DatabaseConfig :=
  let dbId := jsOr databaseId st.defaultDatabaseId
  match st.databaseConfigs.lookup dbId with
  | some config => Except.ok config
  | none => Except.error ("Database configuration " ++ dbId ++ " not found")

/-- initializeDatabases (config mode) from src/src/index.ts: reject an empty
database set, then reject a default id that is not a key of the set (process.exit
modelled as Except.error), otherwise register every configured backend in both the
config map and the pool map. -/
def initializeDatabases (cfg : DatabasesConfig) : Except String ServerState :=
  if cfg.databases.isEmpty then
    Except.error "No databases configured in config file"
  else
    match cfg.databases.lookup cfg.defaultDatabase with
    | none =>
      Except.error ("Default database " ++ cfg.defaultDatabase ++ " not found in configuration")
    | some _ =>
      Except.ok
        { databaseConfigs := cfg.databases
          databasePools := cfg.databases.map (fun p => (p.1, p.2.connectionString))
          defaultDatabaseId := cfg.defaultDatabase }

/-- A positional parameter placeholder, `$1`, `$2`, ... as built by the tool handlers. -/
def placeholder (n : Nat) : String := "$" ++ toString n

/-- The SET clause of the update_entry handler: `Object.entries(values).map(([key, _],
index) => key = $(index+1)).join(", ")`. Argument objects are modelled as association
lists in key order. -/
def setClauses (values : List (String × String)) : String :=
  String.intercalate ", " (values.enum.map (fun p => p.2.1 ++ " = " ++ placeholder (p.1 + 1)))

/-- The WHERE clause built by the update_entry and delete_entry handlers:
`Object.entries(conditions).map(([key, _], index) => key = $(offset+index+1)).join(" AND ")`,
where offset is 0 for delete_entry and `Object.keys(values).length` for update_entry. -/
def whereClauses (offset : Nat) (conditions : List (String × String)) : String :=
  String.intercalate " AND "
    (conditions.enum.map (fun p => p.2.1 ++ " = " ++ placeholder (offset + p.1 + 1)))

/-- The CREATE TABLE statement of the create_table handler, with the column
definitions `columns.map((col) => col.name col.type).join(", ")` interpolated. -/
def createTableQuery (tableName : String) (columns : List (String × String)) : String :=
  "CREATE TABLE " ++ tableName ++ " (" ++
    String.intercalate ", " (columns.map (fun c => c.1 ++ " " ++ c.2)) ++ ")"

/-- The INSERT statement of the insert_entry handler: column list from the keys of
values, one positional placeholder per value, RETURNING *. -/
def insertQuery (tableName : String) (values : List (String × String)) : String :=
  "INSERT INTO " ++ tableName ++ " (" ++
    String.intercalate ", " (values.map (fun p => p.1)) ++ ") VALUES (" ++
    String.intercalate ", " (values.enum.map (fun p => placeholder (p.1 + 1))) ++
    ") RETURNING *"

/-- The UPDATE statement of the update_entry handler. -/
def updateQuery (tableName : String) (values conditions : List (String × String)) : String :=
  "UPDATE " ++ tableName ++ " SET " ++ setClauses values ++ " WHERE " ++
    whereClauses values.length conditions ++ " RETURNING *"

/-- The DELETE statement of the delete_entry handler. -/
def deleteQuery (tableName : String) (conditions : List (String × String)) : String :=
  "DELETE FROM " ++ tableName ++ " WHERE " ++ whereClauses 0 conditions ++ " RETURNING *"

/-- The DROP TABLE statement of the delete_table handler. -/
def deleteTableQuery (tableName : String) : String :=
  "DROP TABLE IF EXISTS " ++ tableName

/-- Observable pool events of one tool call: checking a client out of the pg.Pool
(`pool.connect()`), issuing a command on it (`client.query(...)`), and handing it
back (`client.release()`). -/
inductive PoolEvent
  | acquire
  | command (sql : String)
  | release
deriving Repr, DecidableEq

/-- Failure oracle for the awaited steps of one tool call: whether `pool.connect()`
resolves, whether the first and the second awaited `client.query` of the body
resolve, and whether the `client.query("ROLLBACK")` in the query tool handler's
finally block resolves. -/
structure StepOracle where
  connectOk : Bool
  step1Ok : Bool
  step2Ok : Bool
  rollbackOk : Bool
deriving Repr, DecidableEq

/-- Event trace of the query tool handler in src/src/index.ts. After a successful
connect it always issues BEGIN TRANSACTION READ ONLY; the user statement is issued
only when BEGIN resolved; the finally block then issues ROLLBACK and, only if that
await resolved (a rejection inside a finally block aborts the rest of the block),
releases the client. A failed connect produces no events. -/
def queryToolTrace (o : StepOracle) (sql : String) : List PoolEvent :=
  if o.connectOk then
    PoolEvent.acquire ::
    PoolEvent.command "BEGIN TRANSACTION READ ONLY" ::
    ((if o.step1Ok then [PoolEvent.command sql] else []) ++
      (PoolEvent.command "ROLLBACK" ::
        (if o.rollbackOk then [PoolEvent.release] else [])))
  else []

/-- Event trace of the handlers whose body issues a single awaited query inside
try { } catch { throw } finally { client.release() }: create_table, insert_entry,
update_entry, delete_entry, delete_table. The release in the finally block runs
whether the query resolved or rejected. -/
def simpleToolTrace (o : StepOracle) (sql : String) : List PoolEvent :=
  if o.connectOk then [PoolEvent.acquire, PoolEvent.command sql, PoolEvent.release] else []

/-- Event trace of the health probes that issue one awaited query inside
try { } catch { push error } finally { client.release() }: checkSequenceHealth,
checkReplicationHealth, checkConstraintHealth, calculateIndexCacheHitRate,
calculateTableCacheHitRate. -/
def probeTrace1 (o : StepOracle) (sql : String) : List PoolEvent :=
  if o.connectOk then [PoolEvent.acquire, PoolEvent.command sql, PoolEvent.release] else []

/-- Event trace of the health probes that issue two awaited queries inside the
same try/catch/finally shape: checkIndexHealth, checkConnectionHealth,
checkVacuumHealth. The second query is issued only when the first resolved; a
rejection of either is caught and the finally block still releases. -/
def probeTrace2 (o : StepOracle) (sql1 sql2 : String) : List PoolEvent :=
  if o.connectOk then
    PoolEvent.acquire :: PoolEvent.command sql1 ::
      ((if o.step1Ok then [PoolEvent.command sql2] else []) ++ [PoolEvent.release])
  else []

/-- Trace of the create_table handler over its built statement. -/
def createTableTrace (o : StepOracle) (tableName : String)
    (columns : List (String × String)) : List PoolEvent :=
  simpleToolTrace o (createTableQuery tableName columns)

/-- Trace of the insert_entry handler over its built statement. -/
def insertEntryTrace (o : StepOracle) (tableName : String)
    (values : List (String × String)) : List PoolEvent :=
  simpleToolTrace o (insertQuery tableName values)

/-- Trace of the update_entry handler over its built statement. -/
def updateEntryTrace (o : StepOracle) (tableName : String)
    (values conditions : List (String × String)) : List PoolEvent :=
  simpleToolTrace o (updateQuery tableName values conditions)

/-- Trace of the delete_entry handler over its built statement. -/
def deleteEntryTrace (o : StepOracle) (tableName : String)
    (conditions : List (String × String)) : List PoolEvent :=
  simpleToolTrace o (deleteQuery tableName conditions)

/-- Trace of the delete_table handler over its built statement. -/
def deleteTableTrace (o : StepOracle) (tableName : String) : List PoolEvent :=
  simpleToolTrace o (deleteTableQuery tableName)

/-- Number of acquire events in a trace. -/
def countAcquire : List PoolEvent → Nat
  | [] => 0
  | PoolEvent.acquire :: t => countAcquire t + 1
  | _ :: t => countAcquire t

/-- Number of release events in a trace. -/
def countRelease : List PoolEvent → Nat
  | [] => 0
  | PoolEvent.release :: t => countRelease t + 1
  | _ :: t => countRelease t

/-- The pool in-use counter after replaying a trace from a given starting value. -/
def inUseAfter : Nat → List PoolEvent → Nat
  | n, [] => n
  | n, PoolEvent.acquire :: t => inUseAfter (n + 1) t
  | n, PoolEvent.release :: t => inUseAfter (n - 1) t
  | n, PoolEvent.command _ :: t => inUseAfter n t

/-- Transaction state of one pooled connection: no transaction in progress, an open
read-only transaction, or a read-only transaction aborted by a failed statement. -/
inductive TxState
  | txNone
  | txReadOnly
  | txAborted
deriving Repr, DecidableEq

/-- A client-supplied SQL statement for the query tool, abstracted to whether it
only reads or attempts to mutate database state. -/
inductive Stmt
  | selectStmt
  | mutateStmt
deriving Repr, DecidableEq

/-- A pooled connection to the engine together with the committed database state
it can observe, over an abstract state type. -/
structure PgConn (δ : Type) where
  tx : TxState
  committed : δ

/-- The commands the query tool handler issues on its connection. -/
inductive SqlCmd
  | beginReadOnly
  | userStmt (s : Stmt)
  | rollbackCmd
deriving Repr, DecidableEq

/-- Engine execution of one command on one connection, returning the new connection
state and whether the command succeeded. Modelled from the spec: the relational
engine and its SQL execution semantics are an external collaborator (the core only
needs "execute statement, get rows or error"); this captures the engine contract the
query tool relies on: BEGIN TRANSACTION READ ONLY opens a read-only transaction, a
mutating statement inside it fails and aborts the transaction without touching
committed state (while the same statement outside a transaction autocommits its
effect f), and ROLLBACK unconditionally ends any transaction, discarding it. -/
def execCmd {δ : Type} (f : δ → δ) : PgConn δ → SqlCmd → PgConn δ × Bool
  | c, SqlCmd.beginReadOnly =>
    match c.tx with
    | TxState.txNone => ({ c with tx := TxState.txReadOnly }, true)
    | TxState.txReadOnly => (c, true)
    | TxState.txAborted => (c, false)
  | c, SqlCmd.userStmt Stmt.selectStmt =>
    match c.tx with
    | TxState.txAborted => (c, false)
    | _ => (c, true)
  | c, SqlCmd.userStmt Stmt.mutateStmt =>
    match c.tx with
    | TxState.txNone => ({ c with committed := f c.committed }, true)
    | TxState.txReadOnly => ({ c with tx := TxState.txAborted }, false)
    | TxState.txAborted => (c, false)
  | c, SqlCmd.rollbackCmd => ({ c with tx := TxState.txNone }, true)

/-- The query tool handler of src/src/index.ts run against the engine model: BEGIN
TRANSACTION READ ONLY, then the client-supplied statement (only if BEGIN
succeeded), then the unconditional ROLLBACK of the finally block; the result is an
error whenever BEGIN or the statement failed. -/
def queryToolExec {δ : Type} (f : δ → δ) (s : Stmt) (c : PgConn δ) :
    PgConn δ × Except String Unit :=
  let r1 := execCmd f c SqlCmd.beginReadOnly
  let r2 := if r1.2 then execCmd f r1.1 (SqlCmd.userStmt s) else (r1.1, false)
  let r3 := execCmd f r2.1 SqlCmd.rollbackCmd
  (r3.1, if r1.2 && r2.2 then Except.ok () else Except.error "query failed")

/-- Cache hit rate as computed by the SQL of calculateIndexCacheHitRate and
calculateTableCacheHitRate: `sum(hits) / nullif(sum(hits + reads), 0)`. The nullif
guard makes the rate null (none) when the statistics sum to zero. -/
def cacheHitRate (hits reads : Nat) : Option ℚ :=
  if hits + reads = 0 then none else some ((hits : ℚ) / ((hits : ℚ) + (reads : ℚ)))

/-- calculateIndexCacheHitRate from src/src/index.ts over the statistics sums: a
null rate yields the no-data message, otherwise the rate is classified Good when at
or above the threshold (`rate >= threshold`) and Poor when below. The numeric
percentage interpolated into the real message is elided; the fixed text and the
qualitative label are kept. -/
def calculateIndexCacheHitRate (threshold : ℚ) (hits reads : Nat) : String :=
  match cacheHitRate hits reads with
  | none => "No index statistics available"
  | some rate =>
    if rate ≥ threshold then "Index cache hit rate: Good - above threshold"
    else "Index cache hit rate: Poor - below threshold"

/-- calculateTableCacheHitRate from src/src/index.ts, same shape over the table
statistics views. -/
def calculateTableCacheHitRate (threshold : ℚ) (hits reads : Nat) : String :=
  match cacheHitRate hits reads with
  | none => "No table statistics available"
  | some rate =>
    if rate ≥ threshold then "Table cache hit rate: Good - above threshold"
    else "Table cache hit rate: Poor - below threshold"

/-- The threshold used by the buffer_health_check handler:
`(request.params.arguments?.threshold as number) ?? 0.95`. -/
def bufferThresholdArg (threshold : Option ℚ) : ℚ := threshold.getD (95 / 100)

/-- Outcomes of the awaited probe calls inside performDatabaseHealthCheck, one per
catalog entry, as determined by the backend the aggregator runs against. Each probe
call either resolves to its ordered finding lines or rejects (only a failed
pool.connect() escapes a probe, since each probe catches its own query errors); the
two buffer calculations each resolve to one message string or reject. -/
structure ProbeEnv where
  indexHealth : Except String (List String)
  connectionHealth : Except String (List String)
  vacuumHealth : Except String (List String)
  sequenceHealth : Except String (List String)
  replicationHealth : Except String (List String)
  indexCacheMsg : Except String String
  tableCacheMsg : Except String String
  constraintHealth : Except String (List String)

/-- The fixed probe catalog that the sentinel "all" expands to in
performDatabaseHealthCheck. -/
def healthCatalog : List String :=
  ["index", "connection", "vacuum", "sequence", "replication", "buffer", "constraint"]

/-- The normalization step of performDatabaseHealthCheck:
`healthTypes.includes("all") ? [fixed catalog] : healthTypes`. -/
def normalizeHealthTypes (healthTypes : List String) : List String :=
  if healthTypes.contains "all" then healthCatalog else healthTypes

/-- Models JavaScript String.prototype.toUpperCase on the ASCII health type
names: upper-case every character. -/
def asciiUpper (s : String) : String := String.mk (s.data.map Char.toUpper)

/-- Models JavaScript String.prototype.toLowerCase on the ASCII health type
names: lower-case every character. -/
def asciiLower (s : String) : String := String.mk (s.data.map Char.toLower)

/-- The switch of performDatabaseHealthCheck dispatching one requested health type
(lower-cased) to its probe; the buffer case awaits both cache calculations in
order, so the first rejection escapes; an unrecognized type resolves to the
unknown-type line. -/
def runHealthType (env : ProbeEnv) (t : String) : Except String (List String) :=
  if asciiLower t = "index" then env.indexHealth
  else if asciiLower t = "connection" then env.connectionHealth
  else if asciiLower t = "vacuum" then env.vacuumHealth
  else if asciiLower t = "sequence" then env.sequenceHealth
  else if asciiLower t = "replication" then env.replicationHealth
  else if asciiLower t = "buffer" then
    match env.indexCacheMsg with
    | Except.error e => Except.error e
    | Except.ok ih =>
      match env.tableCacheMsg with
      | Except.error e => Except.error e
      | Except.ok th => Except.ok [ih, th]
  else if asciiLower t = "constraint" then env.constraintHealth
  else Except.ok ["Unknown health check type: " ++ t]

/-- One section of the health report, as pushed by the loop body of
performDatabaseHealthCheck: the upper-cased section header, then either the probe
findings or (the try/catch around the dispatch) the single error line, then the
blank separator line. -/
def healthSection (env : ProbeEnv) (t : String) : List String :=
  ("--- " ++ asciiUpper t ++ " HEALTH ---") ::
    ((match runHealthType env t with
      | Except.ok rs => rs
      | Except.error e => ["Error running " ++ t ++ " health check: " ++ e]) ++ [""])

/-- The concatenated sections of the report body, one per requested type in
request order. -/
def healthSections (env : ProbeEnv) : List String → List String
  | [] => []
  | t :: ts => healthSection env t ++ healthSections env ts

/-- The report preamble pushed before the loop: banner, backend identity, and the
generation timestamp line. -/
def healthPreamble (dbConfig : DatabaseConfig) (dbId timestamp : String) : List String :=
  ["=== PostgreSQL Database Health Report ===",
   "Database: " ++ dbConfig.name ++ " (" ++ dbId ++ ")",
   "Generated at: " ++ timestamp, ""]

/-- performDatabaseHealthCheck from src/src/index.ts, producing the report lines
(the source joins them with newlines on return): resolve the backend config (an
unknown id escapes here, before any section), emit the preamble, normalize the
requested types, then emit one section per requested type; a probe rejection is
caught inside the loop and never escapes. -/
def performDatabaseHealthCheck (st : ServerState) (env : ProbeEnv) (timestamp : String)
    (healthTypes : List String) (databaseId : Option String) :
    Except String (List String) :=
  match getDatabaseConfig st databaseId with
  | Except.error e => Except.error e
  | Except.ok dbConfig =>
    let dbId := jsOr databaseId st.defaultDatabaseId
    Except.ok (healthPreamble dbConfig dbId timestamp ++
      healthSections env (normalizeHealthTypes healthTypes))

/-- Severity tiers of the transaction-id age classification in checkVacuumHealth. -/
inductive TxidSeverity
  | critical
  | warning
  | healthy
deriving Repr, DecidableEq

/-- The classification in checkVacuumHealth: `txidAge > 1500000000` is critical,
else `txidAge > 1000000000` is warning, else healthy. -/
def classifyTxidAge (age : ℤ) : TxidSeverity :=
  if age > 1500000000 then TxidSeverity.critical
  else if age > 1000000000 then TxidSeverity.warning
  else TxidSeverity.healthy

/-- The remaining-headroom expression of the checkVacuumHealth SQL:
`2^31 - age(datfrozenxid)`. -/
def vacuumRemainingTxids (age : ℤ) : ℤ := 2 ^ 31 - age

/-- Descending insertion by dead-tuple count, the building block of the ORDER BY
`n_dead_tup DESC` of the checkVacuumHealth SQL over (table, n_dead_tup) rows. -/
def insertByDeadDesc (x : String × Nat) : List (String × Nat) → List (String × Nat)
  | [] => [x]
  | y :: ys => if y.2 ≤ x.2 then x :: y :: ys else y :: insertByDeadDesc x ys

/-- Sort rows by dead-tuple count, descending. -/
def sortByDeadDesc (l : List (String × Nat)) : List (String × Nat) :=
  l.foldr insertByDeadDesc []

/-- The result set of the checkVacuumHealth dead-tuple query:
`WHERE n_dead_tup > 1000 ORDER BY n_dead_tup DESC LIMIT 5` over the stats rows. -/
def vacuumNeededRows (rows : List (String × Nat)) : List (String × Nat) :=
  (sortByDeadDesc (rows.filter (fun r => 1000 < r.2))).take 5

/-- A table row, abstracted to its column values. -/
def Row : Type := List String

/-- Engine execution of the built DELETE statement, on the where-expression the
builder spliced between " WHERE " and " RETURNING *". Modelled from the spec: the
relational engine is an external collaborator ("execute statement, get rows or
error"); in the SQL grammar the WHERE keyword must be followed by a boolean
expression, so a statement whose where-expression is the empty string (making the
reserved word RETURNING follow WHERE directly) is rejected with a statement error
and the table is unchanged; otherwise the engine removes exactly the rows matching
the conjunction and returns them. -/
def engineRunDelete (whereExpr : String) (sel : Row → Bool) (table : List Row) :
    Except String (List Row × List Row) :=
  if whereExpr = "" then Except.error "syntax error at or near RETURNING"
  else Except.ok (table.filter (fun r => !(sel r)), table.filter sel)

/-- Engine execution of the built UPDATE statement, same grammar contract on the
where-expression: an empty where-expression is a statement error and the table is
unchanged; otherwise exactly the matching rows are updated with upd and returned. -/
def engineRunUpdate (whereExpr : String) (sel : Row → Bool) (upd : Row → Row)
    (table : List Row) : Except String (List Row × List Row) :=
  if whereExpr = "" then Except.error "syntax error at or near RETURNING"
  else
    Except.ok (table.map (fun r => if sel r then upd r else r),
      (table.filter sel).map upd)

/-- The delete_entry handler run against the engine model: it sends the built
DELETE statement, whose where-expression is whereClauses 0 conditions, and
propagates the engine outcome (try { } catch { throw }). -/
def deleteEntryTool (conditions : List (String × String)) (sel : Row → Bool)
    (table : List Row) : Except String (List Row × List Row) :=
  engineRunDelete (whereClauses 0 conditions) sel table

/-- The update_entry handler run against the engine model: it sends the built
UPDATE statement, whose where-expression is whereClauses values.length conditions,
and propagates the engine outcome. -/
def updateEntryTool (values conditions : List (String × String)) (sel : Row → Bool)
    (upd : Row → Row) (table : List Row) : Except String (List Row × List Row) :=
  engineRunUpdate (whereClauses values.length conditions) sel upd table

/-- A concrete registry state with a single backend, for witnesses. -/
def demoState : ServerState :=
  { databaseConfigs := [("main", DatabaseConfig.mk "Main DB" "conn-main" none)]
    databasePools := [("main", "conn-main")]
    defaultDatabaseId := "main" }

/-- A concrete registry state in which the empty string is itself a registered
backend id, distinct from the default backend. -/
def resolveDemoState : ServerState :=
  { databaseConfigs := [("", DatabaseConfig.mk "EmptyId DB" "connA" none),
                        ("db", DatabaseConfig.mk "Named DB" "connB" none)]
    databasePools := [("", "connA"), ("db", "connB")]
    defaultDatabaseId := "db" }

/-- A probe environment in which every probe resolves, for witnesses. -/
def demoProbeEnv : ProbeEnv :=
  { indexHealth := Except.ok ["index findings"]
    connectionHealth := Except.ok ["connection findings"]
    vacuumHealth := Except.ok ["vacuum findings"]
    sequenceHealth := Except.ok ["sequence findings"]
    replicationHealth := Except.ok ["replication findings"]
    indexCacheMsg := Except.ok "index cache message"
    tableCacheMsg := Except.ok "table cache message"
    constraintHealth := Except.ok ["constraint findings"] }

/-- The demo probe environment with the vacuum probe rejecting. -/
def demoFailEnv : ProbeEnv :=
  { demoProbeEnv with vacuumHealth := Except.error "boom" }

/-- Claim C9 (confirmed): registry construction from configuration fails fast
exactly when the configured backend set is empty or the configured default
backend id is not one of its keys; otherwise it succeeds and registers every
configured backend, with its pool, under the configured default id. -/
theorem initializeDatabases_contract (cfg : DatabasesConfig) :
    ((∃ e, initializeDatabases cfg = Except.error e) ↔
      (cfg.databases = [] ∨ cfg.databases.lookup cfg.defaultDatabase = none)) ∧
    (∀ st, initializeDatabases cfg = Except.ok st →
      st.databaseConfigs = cfg.databases ∧
      st.databasePools = cfg.databases.map (fun p => (p.1, p.2.connectionString)) ∧
      st.defaultDatabaseId = cfg.defaultDatabase) := by
  constructor
  · constructor
    · rintro ⟨e, he⟩
      by_cases hemp : cfg.databases.isEmpty
      · exact Or.inl (List.isEmpty_iff.mp hemp)
      · cases hl : cfg.databases.lookup cfg.defaultDatabase with
        | none => exact Or.inr rfl
        | some c =>
          simp [initializeDatabases, hemp, hl] at he
    · intro h
      cases h with
      | inl h =>
        exact ⟨"No databases configured in config file", by simp [initializeDatabases, h]⟩
      | inr h =>
        by_cases hemp : cfg.databases.isEmpty
        · exact ⟨"No databases configured in config file",
            by simp [initializeDatabases, hemp]⟩
        · exact ⟨"Default database " ++ cfg.defaultDatabase ++ " not found in configuration",
            by simp [initializeDatabases, hemp, h]⟩
  · intro st hst
    by_cases hemp : cfg.databases.isEmpty
    · simp [initializeDatabases, hemp] at hst
    · cases hl : cfg.databases.lookup cfg.defaultDatabase with
      | none => simp [initializeDatabases, hemp, hl] at hst
      | some c =>
        simp [initializeDatabases, hemp, hl] at hst
        subst hst
        exact ⟨rfl, rfl, rfl⟩

/-- Witness for C9: a one-backend configuration whose default id is registered
constructs the expected registry. -/
theorem initializeDatabases_contract_witness :
    (ServerState.mk [("main", DatabaseConfig.mk "Main DB" "conn-main" none)]
        [("main", "conn-main")] "main").defaultDatabaseId = "main" :=
  ((initializeDatabases_contract
      (DatabasesConfig.mk [("main", DatabaseConfig.mk "Main DB" "conn-main" none)]
        "main")).2
    _ (by rfl)).2.2

/-- Claim C3 (counterexample): in a registry where the empty string is itself a
registered backend id, resolving that id returns the default backend's pool, not
the pool registered under it, because the source computes
`databaseId || defaultDatabaseId` and the empty string is falsy in JavaScript. -/
theorem resolve_contract_ce :
    resolveDemoState.databasePools.lookup "" = some "connA" ∧
    getDatabasePool resolveDemoState (some "") = Except.ok "connB" ∧
    "connA" ≠ "connB" := by
  refine ⟨rfl, rfl, ?_⟩
  decide

/-- Claim C3 (amended): resolving any registered backend id other than the empty
string returns the pool (respectively descriptor) registered under it; resolving an
absent id returns the default backend's pool; a resolved id with no registration
fails with the unknown-database error. -/
theorem resolve_contract (st : ServerState) (b : String) (dbid : Option String)
    (p : String) (c : DatabaseConfig) :
    (b ≠ "" → st.databasePools.lookup b = some p →
      getDatabasePool st (some b) = Except.ok p) ∧
    (st.databasePools.lookup st.defaultDatabaseId = some p →
      getDatabasePool st none = Except.ok p) ∧
    (st.databasePools.lookup (jsOr dbid st.defaultDatabaseId) = none →
      getDatabasePool st dbid =
        Except.error ("Database " ++ jsOr dbid st.defaultDatabaseId ++ " not found")) ∧
    (b ≠ "" → st.databaseConfigs.lookup b = some c →
      getDatabaseConfig st (some b) = Except.ok c) ∧
    (st.databaseConfigs.lookup st.defaultDatabaseId = some c →
      getDatabaseConfig st none = Except.ok c) ∧
    (st.databaseConfigs.lookup (jsOr dbid st.defaultDatabaseId) = none →
      getDatabaseConfig st dbid =
        Except.error ("Database configuration " ++ jsOr dbid st.defaultDatabaseId ++
          " not found")) := by
  refine ⟨?_, ?_, ?_, ?_, ?_, ?_⟩
  · intro hb hp
    simp [getDatabasePool, jsOr, hb, hp]
  · intro hp
    simp [getDatabasePool, jsOr, hp]
  · intro hp
    simp [getDatabasePool, hp]
  · intro hb hc
    simp [getDatabaseConfig, jsOr, hb, hc]
  · intro hc
    simp [getDatabaseConfig, jsOr, hc]
  · intro hc
    simp [getDatabaseConfig, hc]

/-- Witness for C3 (amended): concrete resolutions against the two-backend demo
registry: a registered nonempty id, the absent id, and an unknown id. -/
theorem resolve_contract_witness :
    getDatabasePool resolveDemoState (some "db") = Except.ok "connB" ∧
    getDatabasePool resolveDemoState none = Except.ok "connB" ∧
    getDatabasePool resolveDemoState (some "zz") = Except.error "Database zz not found" :=
  ⟨(resolve_contract resolveDemoState "db" (some "zz") "connB"
      (DatabaseConfig.mk "Named DB" "connB" none)).1 (by decide) (by rfl),
   (resolve_contract resolveDemoState "db" (some "zz") "connB"
      (DatabaseConfig.mk "Named DB" "connB" none)).2.1 (by rfl),
   (resolve_contract resolveDemoState "db" (some "zz") "connB"
      (DatabaseConfig.mk "Named DB" "connB" none)).2.2.1 (by rfl)⟩

/-- Claim C5 (counterexample): the sentinel "all" does not expand to the catalog in
the order the claim lists it (buffer first); the code's expansion places buffer
sixth, after replication. -/
theorem normalizeHealthTypes_order_ce :
    normalizeHealthTypes ["all"] ≠
      ["buffer", "index", "connection", "vacuum", "sequence", "replication",
       "constraint"] ∧
    normalizeHealthTypes ["all"] =
      ["index", "connection", "vacuum", "sequence", "replication", "buffer",
       "constraint"] := by
  refine ⟨?_, rfl⟩
  decide

/-- Claim C5 (amended): for every requested list containing the sentinel "all", the
sentinel expands to the full fixed probe catalog in the code's fixed order: index,
connection, vacuum, sequence, replication, buffer, constraint. -/
theorem normalizeHealthTypes_all (healthTypes : List String)
    (h : healthTypes.contains "all" = true) :
    normalizeHealthTypes healthTypes =
      ["index", "connection", "vacuum", "sequence", "replication", "buffer",
       "constraint"] := by
  have hmem : "all" ∈ healthTypes := by simpa using h
  simp [normalizeHealthTypes, hmem, healthCatalog]

/-- Witness for C5 (amended): the default requested list expands to the catalog. -/
theorem normalizeHealthTypes_all_witness :
    (["all"] : List String).contains "all" = true ∧
    normalizeHealthTypes ["all"] =
      ["index", "connection", "vacuum", "sequence", "replication", "buffer",
       "constraint"] :=
  ⟨by decide, normalizeHealthTypes_all ["all"] (by decide)⟩

/-- Claim C4 (confirmed): whenever the requested health types contain "all" and the
backend resolves, the produced report is the preamble followed by exactly one
section per catalog probe, in the fixed order index, connection, vacuum, sequence,
replication, buffer, constraint, and every section starts with its own label. -/
theorem healthCheck_all_sections (st : ServerState) (env : ProbeEnv)
    (timestamp : String) (healthTypes : List String) (databaseId : Option String)
    (dbConfig : DatabaseConfig)
    (hall : healthTypes.contains "all" = true)
    (hcfg : getDatabaseConfig st databaseId = Except.ok dbConfig) :
    performDatabaseHealthCheck st env timestamp healthTypes databaseId =
      Except.ok (healthPreamble dbConfig (jsOr databaseId st.defaultDatabaseId) timestamp ++
        (healthSection env "index" ++ healthSection env "connection" ++
         healthSection env "vacuum" ++ healthSection env "sequence" ++
         healthSection env "replication" ++ healthSection env "buffer" ++
         healthSection env "constraint")) ∧
    (∀ t, (healthSection env t).head? = some ("--- " ++ asciiUpper t ++ " HEALTH ---")) := by
  constructor
  · have hmem : "all" ∈ healthTypes := by simpa using hall
    simp [performDatabaseHealthCheck, hcfg, normalizeHealthTypes, hmem, healthCatalog,
      healthSections, List.append_assoc]
  · intro t
    simp [healthSection]

/-- Witness for C4: the report for ["all"] against the demo registry and the demo
probe environment decomposes into the seven labeled catalog sections. -/
theorem healthCheck_all_sections_witness :
    performDatabaseHealthCheck demoState demoProbeEnv "2026-01-01T00:00:00Z" ["all"] none =
      Except.ok (healthPreamble (DatabaseConfig.mk "Main DB" "conn-main" none) "main"
          "2026-01-01T00:00:00Z" ++
        (healthSection demoProbeEnv "index" ++ healthSection demoProbeEnv "connection" ++
         healthSection demoProbeEnv "vacuum" ++ healthSection demoProbeEnv "sequence" ++
         healthSection demoProbeEnv "replication" ++ healthSection demoProbeEnv "buffer" ++
         healthSection demoProbeEnv "constraint")) :=
  (healthCheck_all_sections demoState demoProbeEnv "2026-01-01T00:00:00Z" ["all"] none
    (DatabaseConfig.mk "Main DB" "conn-main" none) (by decide) (by rfl)).1

/-- Claim C6 (confirmed): a probe that raises produces a section holding exactly
its header and the single error-running line in place of findings; a section is a
function of its own probe's outcome alone, so every other requested section is
unchanged; and once the backend config resolves the aggregation always returns a
report, never re-raising a probe failure. -/
theorem healthCheck_probe_isolation (st : ServerState) (env env2 : ProbeEnv)
    (timestamp : String) (healthTypes : List String) (databaseId : Option String)
    (dbConfig : DatabaseConfig) (t e : String)
    (hfail : runHealthType env t = Except.error e)
    (hcfg : getDatabaseConfig st databaseId = Except.ok dbConfig) :
    healthSection env t =
      ["--- " ++ asciiUpper t ++ " HEALTH ---",
       "Error running " ++ t ++ " health check: " ++ e, ""] ∧
    (∀ u, runHealthType env u = runHealthType env2 u →
      healthSection env u = healthSection env2 u) ∧
    performDatabaseHealthCheck st env timestamp healthTypes databaseId =
      Except.ok (healthPreamble dbConfig (jsOr databaseId st.defaultDatabaseId) timestamp ++
        healthSections env (normalizeHealthTypes healthTypes)) := by
  refine ⟨?_, ?_, ?_⟩
  · simp [healthSection, hfail]
  · intro u hu
    simp [healthSection, hu]
  · simp [performDatabaseHealthCheck, hcfg]

/-- Witness for C6: with the vacuum probe rejecting, the vacuum section is the
header plus the error line, the sequence section equals the one produced by the
all-healthy environment, and the aggregation still returns a report. -/
theorem healthCheck_probe_isolation_witness :
    healthSection demoFailEnv "vacuum" =
      ["--- VACUUM HEALTH ---", "Error running vacuum health check: boom", ""] ∧
    healthSection demoFailEnv "sequence" = healthSection demoProbeEnv "sequence" ∧
    performDatabaseHealthCheck demoState demoFailEnv "2026-01-01T00:00:00Z" ["vacuum",
        "sequence"] none =
      Except.ok (healthPreamble (DatabaseConfig.mk "Main DB" "conn-main" none) "main"
          "2026-01-01T00:00:00Z" ++
        healthSections demoFailEnv (normalizeHealthTypes ["vacuum", "sequence"])) :=
  ⟨(healthCheck_probe_isolation demoState demoFailEnv demoProbeEnv "2026-01-01T00:00:00Z"
      ["vacuum", "sequence"] none (DatabaseConfig.mk "Main DB" "conn-main" none)
      "vacuum" "boom" (by rfl) (by rfl)).1,
   (healthCheck_probe_isolation demoState demoFailEnv demoProbeEnv "2026-01-01T00:00:00Z"
      ["vacuum", "sequence"] none (DatabaseConfig.mk "Main DB" "conn-main" none)
      "vacuum" "boom" (by rfl) (by rfl)).2.1 "sequence" (by rfl),
   (healthCheck_probe_isolation demoState demoFailEnv demoProbeEnv "2026-01-01T00:00:00Z"
      ["vacuum", "sequence"] none (DatabaseConfig.mk "Main DB" "conn-main" none)
      "vacuum" "boom" (by rfl) (by rfl)).2.2⟩

/-- Inserting a row in descending dead-tuple order yields a permutation of consing it. -/
theorem insertByDeadDesc_perm (x : String × Nat) (l : List (String × Nat)) :
    List.Perm (insertByDeadDesc x l) (x :: l) := by
  induction l with
  | nil => simp [insertByDeadDesc]
  | cons y ys ih =>
    by_cases h : y.2 ≤ x.2
    · simp [insertByDeadDesc, h]
    · simp only [insertByDeadDesc, if_neg h]
      exact (ih.cons y).trans (List.Perm.swap x y ys)

/-- The descending sort by dead-tuple count is a permutation of its input. -/
theorem sortByDeadDesc_perm (l : List (String × Nat)) :
    List.Perm (sortByDeadDesc l) l := by
  induction l with
  | nil => simp [sortByDeadDesc]
  | cons a l ih =>
    exact (insertByDeadDesc_perm a (sortByDeadDesc l)).trans (ih.cons a)

/-- Descending insertion preserves the descending-sorted invariant. -/
theorem insertByDeadDesc_pairwise (x : String × Nat) (l : List (String × Nat))
    (h : List.Pairwise (fun a b => b.2 ≤ a.2) l) :
    List.Pairwise (fun a b => b.2 ≤ a.2) (insertByDeadDesc x l) := by
  induction l with
  | nil => simp [insertByDeadDesc]
  | cons y ys ih =>
    rw [List.pairwise_cons] at h
    obtain ⟨hy, hys⟩ := h
    by_cases hle : y.2 ≤ x.2
    · rw [show insertByDeadDesc x (y :: ys) = x :: y :: ys from by
        simp [insertByDeadDesc, hle]]
      refine List.Pairwise.cons ?_ (List.Pairwise.cons hy hys)
      intro b hb
      rcases List.mem_cons.mp hb with hb | hb
      · subst hb; exact hle
      · exact le_trans (hy b hb) hle
    · rw [show insertByDeadDesc x (y :: ys) = y :: insertByDeadDesc x ys from by
        simp [insertByDeadDesc, hle]]
      refine List.Pairwise.cons ?_ (ih hys)
      intro b hb
      have hmem : b ∈ x :: ys := (insertByDeadDesc_perm x ys).mem_iff.mp hb
      rcases List.mem_cons.mp hmem with hb2 | hb2
      · subst hb2; exact le_of_not_le hle
      · exact hy b hb2

/-- The descending sort by dead-tuple count is descending-sorted. -/
theorem sortByDeadDesc_pairwise (l : List (String × Nat)) :
    List.Pairwise (fun a b => b.2 ≤ a.2) (sortByDeadDesc l) := by
  induction l with
  | nil => simp [sortByDeadDesc]
  | cons a l ih => exact insertByDeadDesc_pairwise a (sortByDeadDesc l) ih

/-- Claim C7 (counterexample): at a transaction-id age of exactly 1.5e9 the code
classifies warning, not critical (the comparison is strict), and at exactly 1e9 it
classifies healthy, not warning. -/
theorem classifyTxidAge_boundary_ce :
    classifyTxidAge 1500000000 = TxidSeverity.warning ∧
    TxidSeverity.warning ≠ TxidSeverity.critical ∧
    classifyTxidAge 1000000000 = TxidSeverity.healthy ∧
    TxidSeverity.healthy ≠ TxidSeverity.warning := by
  refine ⟨by decide, by decide, by decide, by decide⟩

/-- Claim C7 (amended): the vacuum probe computes remaining wraparound headroom as
2^31 minus the transaction-id age, and classifies severity in three tiers with
strict comparisons: critical when age > 1.5e9, warning when 1e9 < age ≤ 1.5e9,
healthy otherwise; the dead-tuple listing holds at most 5 tables, every listed
table has more than 1000 dead tuples and comes from the stats rows, and the
listing is in descending dead-tuple order. -/
theorem vacuumHealth_contract (age : ℤ) (rows : List (String × Nat)) :
    vacuumRemainingTxids age = 2 ^ 31 - age ∧
    (classifyTxidAge age = TxidSeverity.critical ↔ 1500000000 < age) ∧
    (classifyTxidAge age = TxidSeverity.warning ↔
      (1000000000 < age ∧ age ≤ 1500000000)) ∧
    (classifyTxidAge age = TxidSeverity.healthy ↔ age ≤ 1000000000) ∧
    (vacuumNeededRows rows).length ≤ 5 ∧
    (∀ r ∈ vacuumNeededRows rows, 1000 < r.2 ∧ r ∈ rows) ∧
    List.Pairwise (fun a b => b.2 ≤ a.2) (vacuumNeededRows rows) := by
  refine ⟨rfl, ?_, ?_, ?_, ?_, ?_, ?_⟩
  · unfold classifyTxidAge
    by_cases h1 : (1500000000 : ℤ) < age <;> by_cases h2 : (1000000000 : ℤ) < age <;>
      simp [h1, h2]
  · unfold classifyTxidAge
    by_cases h1 : (1500000000 : ℤ) < age <;> by_cases h2 : (1000000000 : ℤ) < age <;>
      simp [h1, h2] <;> omega
  · unfold classifyTxidAge
    by_cases h1 : (1500000000 : ℤ) < age <;> by_cases h2 : (1000000000 : ℤ) < age <;>
      simp [h1, h2] <;> omega
  · have hlen := List.length_take_le 5 (sortByDeadDesc (rows.filter (fun r => 1000 < r.2)))
    simpa [vacuumNeededRows] using hlen
  · intro r hr
    simp only [vacuumNeededRows] at hr
    have hmem : r ∈ sortByDeadDesc (rows.filter (fun r => 1000 < r.2)) :=
      List.mem_of_mem_take hr
    have hmem2 : r ∈ rows.filter (fun r => 1000 < r.2) :=
      (sortByDeadDesc_perm _).mem_iff.mp hmem
    have hsplit := List.mem_filter.mp hmem2
    exact ⟨by simpa using hsplit.2, hsplit.1⟩
  · exact List.Pairwise.sublist (List.take_sublist 5 _) (sortByDeadDesc_pairwise _)

/-- Witness for C7 (amended): a concrete age beyond 1.5e9 is critical and its
headroom is 2^31 minus the age. -/
theorem vacuumHealth_contract_witness :
    classifyTxidAge 1600000000 = TxidSeverity.critical ∧
    vacuumRemainingTxids 1600000000 = 547483648 :=
  ⟨((vacuumHealth_contract 1600000000 []).2.1).mpr (by decide),
   by rw [(vacuumHealth_contract 1600000000 []).1]; decide⟩

/-- Claim C8 (confirmed): when the statistics sum to zero the guarded division
yields the no-data message; otherwise the computed rate is classified Good when at
or above the threshold and Poor when below it, for every threshold; in particular a
0.99 rate is Good against threshold 0.5 and Poor against 0.999; and the handler's
default threshold is 0.95. -/
theorem bufferHealth_contract (threshold r : ℚ) (hits reads : Nat) :
    (hits + reads = 0 →
      calculateIndexCacheHitRate threshold hits reads = "No index statistics available" ∧
      calculateTableCacheHitRate threshold hits reads = "No table statistics available") ∧
    (cacheHitRate hits reads = some r →
      ((threshold ≤ r →
        calculateIndexCacheHitRate threshold hits reads =
          "Index cache hit rate: Good - above threshold" ∧
        calculateTableCacheHitRate threshold hits reads =
          "Table cache hit rate: Good - above threshold") ∧
       (r < threshold →
        calculateIndexCacheHitRate threshold hits reads =
          "Index cache hit rate: Poor - below threshold" ∧
        calculateTableCacheHitRate threshold hits reads =
          "Table cache hit rate: Poor - below threshold"))) ∧
    bufferThresholdArg none = 95 / 100 ∧
    bufferThresholdArg (some threshold) = threshold ∧
    calculateIndexCacheHitRate (1 / 2) 99 1 =
      "Index cache hit rate: Good - above threshold" ∧
    calculateIndexCacheHitRate (999 / 1000) 99 1 =
      "Index cache hit rate: Poor - below threshold" := by
  refine ⟨?_, ?_, rfl, rfl, ?_, ?_⟩
  · intro h0
    constructor <;>
      simp [calculateIndexCacheHitRate, calculateTableCacheHitRate, cacheHitRate, h0]
  · intro hr
    constructor
    · intro hge
      constructor <;>
        simp [calculateIndexCacheHitRate, calculateTableCacheHitRate, hr, hge]
    · intro hlt
      constructor <;>
        simp [calculateIndexCacheHitRate, calculateTableCacheHitRate, hr, not_le.mpr hlt]
  · have h99 : cacheHitRate 99 1 = some (99 / 100) := by
      norm_num [cacheHitRate]
    simp [calculateIndexCacheHitRate, h99]
    norm_num
  · have h99 : cacheHitRate 99 1 = some (99 / 100) := by
      norm_num [cacheHitRate]
    simp [calculateIndexCacheHitRate, h99]
    norm_num

/-- Witness for C8: the zero-statistics guard and the Good classification at a
concrete rate and threshold. -/
theorem bufferHealth_contract_witness :
    calculateIndexCacheHitRate (1 / 2) 0 0 = "No index statistics available" ∧
    calculateIndexCacheHitRate (1 / 2) 99 1 =
      "Index cache hit rate: Good - above threshold" :=
  ⟨((bufferHealth_contract (1 / 2) (99 / 100) 0 0).1 (by decide)).1,
   (((bufferHealth_contract (1 / 2) (99 / 100) 99 1).2.1
      (by norm_num [cacheHitRate])).1 (by norm_num)).1⟩

/-- Claim C2 (confirmed): the query tool issues an unconditional ROLLBACK that
precedes any release of the connection on both the success and the failure path,
and, run against the read-only transaction semantics, it leaves the committed
database state and the connection's transaction state unchanged (transaction state
"none" after the call); a mutating client statement inside the wrapper fails. -/
theorem queryTool_readOnly_contract (δ : Type) (o : StepOracle) (sql : String)
    (f : δ → δ) (s : Stmt) (c : PgConn δ)
    (hconn : o.connectOk = true) (htx : c.tx = TxState.txNone) :
    (∃ pre post, queryToolTrace o sql =
        pre ++ PoolEvent.command "ROLLBACK" :: post ∧ countRelease pre = 0) ∧
    (queryToolExec f s c).1.committed = c.committed ∧
    (queryToolExec f s c).1.tx = TxState.txNone ∧
    (s = Stmt.mutateStmt → (queryToolExec f s c).2 = Except.error "query failed") := by
  obtain ⟨c1, s1, s2, r1⟩ := o
  subst hconn
  obtain ⟨tx, db⟩ := c
  have htx2 : tx = TxState.txNone := htx
  subst htx2
  refine ⟨?_, ?_, ?_, ?_⟩
  · cases s1 <;> cases r1 <;>
      first
        | exact ⟨[PoolEvent.acquire, PoolEvent.command "BEGIN TRANSACTION READ ONLY"],
            [], rfl, rfl⟩
        | exact ⟨[PoolEvent.acquire, PoolEvent.command "BEGIN TRANSACTION READ ONLY"],
            [PoolEvent.release], rfl, rfl⟩
        | exact ⟨[PoolEvent.acquire, PoolEvent.command "BEGIN TRANSACTION READ ONLY",
            PoolEvent.command sql], [], rfl, rfl⟩
        | exact ⟨[PoolEvent.acquire, PoolEvent.command "BEGIN TRANSACTION READ ONLY",
            PoolEvent.command sql], [PoolEvent.release], rfl, rfl⟩
  · cases s <;> rfl
  · cases s <;> rfl
  · intro hs
    subst hs
    rfl

/-- Witness for C2: with every step resolving and a mutating client statement, the
ROLLBACK precedes the release, the committed state 0 is unchanged, the transaction
state ends at none, and the statement itself fails. -/
theorem queryTool_readOnly_contract_witness :
    (∃ pre post, queryToolTrace (StepOracle.mk true true true true) "INSERT INTO t VALUES (1)" =
        pre ++ PoolEvent.command "ROLLBACK" :: post ∧ countRelease pre = 0) ∧
    (queryToolExec (fun n => n + 1) Stmt.mutateStmt
      (PgConn.mk TxState.txNone (0 : Nat))).1.committed = 0 ∧
    (queryToolExec (fun n => n + 1) Stmt.mutateStmt
      (PgConn.mk TxState.txNone (0 : Nat))).1.tx = TxState.txNone ∧
    (queryToolExec (fun n => n + 1) Stmt.mutateStmt
      (PgConn.mk TxState.txNone (0 : Nat))).2 = Except.error "query failed" := by
  have h := queryTool_readOnly_contract Nat (StepOracle.mk true true true true)
    "INSERT INTO t VALUES (1)" (fun n => n + 1) Stmt.mutateStmt
    (PgConn.mk TxState.txNone (0 : Nat)) rfl rfl
  exact ⟨h.1, h.2.1, h.2.2.1, h.2.2.2 rfl⟩

/-- Claim C1 (counterexample): in the query tool handler the finally block awaits
ROLLBACK before client.release(), so on the path where that ROLLBACK rejects the
release is skipped: the client was acquired once, released zero times, and the pool
in-use count does not return to its pre-call value. -/
theorem queryTool_release_leak_ce :
    countAcquire (queryToolTrace (StepOracle.mk true true true false) "SELECT 1") = 1 ∧
    countRelease (queryToolTrace (StepOracle.mk true true true false) "SELECT 1") = 0 ∧
    inUseAfter 0 (queryToolTrace (StepOracle.mk true true true false) "SELECT 1") = 1 :=
  ⟨rfl, rfl, rfl⟩

/-- Claim C1 (amended): for create_table, insert_entry, update_entry, delete_entry,
delete_table and every health probe, the acquired connection is released exactly
once on every exit path and the pool in-use count returns to its pre-call value;
for the query tool the same holds provided the awaited ROLLBACK in its finally
block resolves. -/
theorem pool_release_balanced (o : StepOracle) (n : Nat) (sql q1 q2 tableName : String)
    (values conditions columns : List (String × String))
    (hrb : o.rollbackOk = true) :
    (countRelease (queryToolTrace o sql) = countAcquire (queryToolTrace o sql) ∧
      inUseAfter n (queryToolTrace o sql) = n) ∧
    (countRelease (createTableTrace o tableName columns) =
        countAcquire (createTableTrace o tableName columns) ∧
      inUseAfter n (createTableTrace o tableName columns) = n) ∧
    (countRelease (insertEntryTrace o tableName values) =
        countAcquire (insertEntryTrace o tableName values) ∧
      inUseAfter n (insertEntryTrace o tableName values) = n) ∧
    (countRelease (updateEntryTrace o tableName values conditions) =
        countAcquire (updateEntryTrace o tableName values conditions) ∧
      inUseAfter n (updateEntryTrace o tableName values conditions) = n) ∧
    (countRelease (deleteEntryTrace o tableName conditions) =
        countAcquire (deleteEntryTrace o tableName conditions) ∧
      inUseAfter n (deleteEntryTrace o tableName conditions) = n) ∧
    (countRelease (deleteTableTrace o tableName) =
        countAcquire (deleteTableTrace o tableName) ∧
      inUseAfter n (deleteTableTrace o tableName) = n) ∧
    (countRelease (probeTrace1 o q1) = countAcquire (probeTrace1 o q1) ∧
      inUseAfter n (probeTrace1 o q1) = n) ∧
    (countRelease (probeTrace2 o q1 q2) = countAcquire (probeTrace2 o q1 q2) ∧
      inUseAfter n (probeTrace2 o q1 q2) = n) := by
  obtain ⟨c1, s1, s2, r1⟩ := o
  subst hrb
  cases c1 <;> cases s1 <;>
    simp [queryToolTrace, createTableTrace, insertEntryTrace, updateEntryTrace,
      deleteEntryTrace, deleteTableTrace, probeTrace1, probeTrace2, simpleToolTrace,
      countAcquire, countRelease, inUseAfter]

/-- Witness for C1 (amended): the balanced query tool path with the ROLLBACK
resolving, and a probe path whose first query rejects, both leave the in-use count
where it started. -/
theorem pool_release_balanced_witness :
    countRelease (queryToolTrace (StepOracle.mk true true true true) "SELECT 1") =
      countAcquire (queryToolTrace (StepOracle.mk true true true true) "SELECT 1") ∧
    inUseAfter 3 (probeTrace2 (StepOracle.mk true false false true) "q1" "q2") = 3 :=
  ⟨(pool_release_balanced (StepOracle.mk true true true true) 3 "SELECT 1" "q1" "q2"
      "t" [] [] [] rfl).1.1,
   (pool_release_balanced (StepOracle.mk true false false true) 3 "SELECT 1" "q1" "q2"
      "t" [] [] [] rfl).2.2.2.2.2.2.2.2⟩

/-- Claim C10 (confirmed): with an empty conditions map the update_entry and
delete_entry builders produce a statement whose where-expression is the empty
string — for delete_entry literally "DELETE FROM t WHERE  RETURNING *" — which the
engine rejects as a syntax error, so the call always fails and never silently
updates or deletes any row. -/
theorem empty_conditions_reject (tableName : String) (values : List (String × String))
    (sel : Row → Bool) (upd : Row → Row) (table : List Row) :
    whereClauses 0 [] = "" ∧
    deleteQuery "t" [] = "DELETE FROM t WHERE  RETURNING *" ∧
    deleteQuery tableName [] = "DELETE FROM " ++ tableName ++ " WHERE  RETURNING *" ∧
    updateQuery tableName values [] =
      "UPDATE " ++ tableName ++ " SET " ++ setClauses values ++ " WHERE  RETURNING *" ∧
    deleteEntryTool [] sel table = Except.error "syntax error at or near RETURNING" ∧
    updateEntryTool values [] sel upd table =
      Except.error "syntax error at or near RETURNING" := by
  refine ⟨rfl, rfl, ?_, ?_, rfl, rfl⟩
  · show "DELETE FROM " ++ tableName ++ " WHERE " ++ "" ++ " RETURNING *" = _
    rw [String.append_empty, String.append_assoc]
    rfl
  · show "UPDATE " ++ tableName ++ " SET " ++ setClauses values ++ " WHERE " ++ "" ++
      " RETURNING *" = _
    rw [String.append_empty, String.append_assoc]
    rfl

end PgMcp
